import Mathlib

/-
Verification of the camera lifecycle, recording orchestrator and conversion
pipeline of the parkinson-analysis capture API (src/api/camera.py,
src/api/main.py, src/api/conversion.py), as a shallow embedding.

Device/SDK interactions (pipeline start, barrier waits, encoder subprocess,
frame counting) are modelled as boolean/numeric oracles supplied as inputs;
the control flow around them follows the Python source.
-/

namespace ParkinsonAnalysis

-- =========================================================================
-- Definitions: CameraSource (src/api/camera.py)
-- =========================================================================

/-- Camera type constants from src/api/config.py
(CAMERA_TYPE_REALSENSE, CAMERA_TYPE_BAG_FILE). -/
inductive CameraType
  | realsense
  | bagFile
  deriving DecidableEq, Repr

/-- Mutable state of one CameraSource (src/api/camera.py, class CameraSource).
Frame-cache fields (latest_frame, latest_depth, last_frame_time) are not
modelled; the claims below do not touch them. -/
structure CameraState where
  cameraId : Nat
  cameraType : CameraType
  running : Bool
  recording : Bool
  recordingPath : Option String
  pipelineOpen : Bool
  captureThread : Bool
  stopEventSet : Bool
  realsenseSerial : Option String
  firstHwTimestamp : Option Int
  lastHwTimestamp : Option Int
  hwTimestampDomain : Option String
  recordingFrameCount : Nat
  deriving DecidableEq, Repr

/-- Environment read by CameraSource.start: the REALSENSE_AVAILABLE flag and
the detection cache maintained by src/api/config.py (get_detected_cameras,
a map camera_id to device info; here camera_id to serial). The cache is a
plain read — get_detected_cameras never re-enumerates once populated. -/
structure CameraEnv where
  realsenseAvailable : Bool
  detected : List (Nat × String)
  deriving DecidableEq, Repr

/-- Observable side effects of a CameraSource operation, used to state
the claims about no device open, no thread spawn, no detection refresh. -/
inductive CameraEvent
  | deviceStartAttempt
  | spawnCaptureThread
  | refreshDetection
  | pipelineStop
  deriving DecidableEq, Repr

/-- CameraSource.start (src/api/camera.py lines 102-134).
`deviceOk` is the oracle for whether _start_realsense finds a working
configuration. Returns (result, new state, emitted events). -/
def CameraSource.start (env : CameraEnv) (deviceOk : Bool)
    (st : CameraState) : Bool × CameraState × List CameraEvent :=
  -- Quick check under lock: if already running, bail out immediately.
  if st.running then (true, st, [])
  else if ¬ env.realsenseAvailable then (false, st, [])
  -- Not in the detection cache: fail silently, no refresh is triggered.
  else if st.cameraType = CameraType.realsense ∧ (env.detected.lookup st.cameraId).isNone then
    (false, st, [])
  else
    -- Update serial from cache in case it changed, clear the stop event,
    -- then run _start_realsense without the lock.
    let st1 := match env.detected.lookup st.cameraId with
      | some serial => { st with realsenseSerial := some serial }
      | none => st
    let st2 := { st1 with stopEventSet := false }
    if deviceOk then
      (true,
       { st2 with running := true, pipelineOpen := true, captureThread := true },
       [CameraEvent.deviceStartAttempt, CameraEvent.spawnCaptureThread])
    else
      -- all configurations failed: camera offline (lines 572-576)
      (false,
       { st2 with recording := false, recordingPath := none, pipelineOpen := false },
       [CameraEvent.deviceStartAttempt])

/-- CameraSource.stop_recording (src/api/camera.py lines 381-417).
`restartOk` is the oracle for the quick-restart _start_realsense call.
Returns (recorded path, new state, events). -/
def CameraSource.stop_recording (restartOk : Bool)
    (st : CameraState) : Option String × CameraState × List CameraEvent :=
  if ¬ st.recording then (none, st, [])
  else
    let recordedPath := st.recordingPath
    -- stop capture thread, stop pipeline, clear recording flags
    let st1 := { st with
      captureThread := false, pipelineOpen := false,
      running := false, recording := false, recordingPath := none,
      stopEventSet := false }
    if restartOk then
      (recordedPath,
       { st1 with running := true, pipelineOpen := true, captureThread := true },
       [CameraEvent.pipelineStop, CameraEvent.deviceStartAttempt,
        CameraEvent.spawnCaptureThread])
    else
      (recordedPath, st1,
       [CameraEvent.pipelineStop, CameraEvent.deviceStartAttempt])

/-- get_physical_camera_id (src/api/main.py lines 157-170): maps a logical
camera id to a physical one under the SWAP_CAMERAS flag. -/
def get_physical_camera_id (swapCameras : Bool) (logicalId : Int) : Int :=
  if swapCameras then 1 - logicalId else logicalId

/-- A CameraSource that is up and streaming (concrete instance for
witnesses). -/
def runningCam : CameraState :=
  { cameraId := 0, cameraType := CameraType.realsense, running := true,
    recording := false, recordingPath := none, pipelineOpen := true,
    captureThread := true, stopEventSet := false,
    realsenseSerial := some ("123456"), firstHwTimestamp := none,
    lastHwTimestamp := none, hwTimestampDomain := none,
    recordingFrameCount := 0 }

/-- A stopped CameraSource with id 1 (concrete instance for witnesses). -/
def stoppedCam : CameraState :=
  { cameraId := 1, cameraType := CameraType.realsense, running := false,
    recording := false, recordingPath := none, pipelineOpen := false,
    captureThread := false, stopEventSet := false, realsenseSerial := none,
    firstHwTimestamp := none, lastHwTimestamp := none,
    hwTimestampDomain := none, recordingFrameCount := 0 }

/-- A detection cache holding only camera 0 (concrete instance for
witnesses). -/
def envCam0Only : CameraEnv :=
  { realsenseAvailable := true, detected := [(0, "123456")] }

-- =========================================================================
-- Definitions: conversion job table (src/api/conversion.py lines 46-117)
-- =========================================================================

/-- Job status strings of src/api/conversion.py
(pending, converting, done, failed, cancelled). -/
inductive JobStatus
  | pending
  | converting
  | done
  | failed
  | cancelled
  deriving DecidableEq, Repr

/-- Per-camera slot status strings of src/api/conversion.py
(pending, skipped, converting, done, failed, cancelled). -/
inductive SlotStatus
  | pending
  | skipped
  | converting
  | done
  | failed
  | cancelled
  deriving DecidableEq, Repr

/-- The fields of one entry of conversion_jobs relevant to
cancel_conversion_job (src/api/conversion.py lines 66-101). -/
structure ConversionJob where
  batchId : String
  status : JobStatus
  cancelled : Bool
  deriving DecidableEq, Repr

/-- cancel_conversion_job (src/api/conversion.py lines 92-101). The job
table dict is modelled as a lookup function. Returns the boolean result
and the updated table. -/
def cancel_conversion_job (jobs : String → Option ConversionJob)
    (jobId : String) : Bool × (String → Option ConversionJob) :=
  match jobs jobId with
  | none => (false, jobs)
  | some job =>
      let job1 := { job with cancelled := true }
      let job2 :=
        if job1.status = JobStatus.pending ∨ job1.status = JobStatus.converting
        then { job1 with status := JobStatus.cancelled }
        else job1
      (true, fun k => if k = jobId then some job2 else jobs k)

/-- Key of the demo job used in witnesses. -/
def jobOneId : String := "job-1"

/-- A key absent from the demo table, used in witnesses. -/
def jobTwoId : String := "job-2"

/-- A job that already finished (final status done). -/
def demoJob : ConversionJob :=
  { batchId := "batch-A", status := JobStatus.done, cancelled := false }

/-- A one-entry job table (concrete instance for witnesses). -/
def demoJobs : String → Option ConversionJob :=
  fun k => if k = jobOneId then some demoJob else none

-- =========================================================================
-- Definitions: per-camera conversion (src/api/conversion.py lines 220-489)
-- =========================================================================

/-- The metadata sidecar JSON, restricted to the fields the claims touch:
the two conversion-owned fields stamped unconditionally plus one
representative setdefault field. -/
structure Sidecar where
  mp4File : Option String := none
  mp4Frames : Option Nat := none
  patientId : Option String := none
  deriving DecidableEq, Repr

/-- _update_metadata_sidecar (src/api/conversion.py lines 171-213):
mp4_file and mp4_frames are stamped unconditionally over any prior value;
patient_id is merged with setdefault semantics. -/
def update_metadata_sidecar (prior : Option Sidecar) (mp4File : String)
    (mp4Frames : Nat) (patientId : String) : Sidecar :=
  let meta := prior.getD {}
  { meta with
    mp4File := some mp4File,
    mp4Frames := some mp4Frames,
    patientId := some (meta.patientId.getD patientId) }

/-- The two encoders tried in priority order
(src/api/conversion.py lines 309-318). -/
inductive Encoder
  | h264Nvenc
  | libx264
  deriving DecidableEq, Repr

/-- Oracle for one iteration of the encoder loop: cancellation polls,
whether the BAG replay finished cleanly, what the encoder subprocess left
behind, the cv2 frame count of the temp file, and whether the final rename
succeeded. -/
structure EncoderAttempt where
  cancelledAtStart : Bool
  cancelledAfterPipe : Bool
  bagReadOk : Bool
  tempProduced : Bool
  tempNonEmpty : Bool
  framesWritten : Nat
  mp4Frames : Nat
  renameOk : Bool
  deriving DecidableEq, Repr

/-- One per-camera slot of a conversion job
(src/api/conversion.py lines 50-63). -/
structure CamSlot where
  status : SlotStatus := SlotStatus.pending
  progress : Nat := 0
  framesWritten : Nat := 0
  totalFrames : Nat := 0
  encoder : Option Encoder := none
  errorMsg : Option String := none
  mp4File : Option String := none
  deriving DecidableEq, Repr

/-- Result of one run of _convert_single_camera: the final slot plus the
on-disk situation (temp file, published mp4, metadata sidecar). -/
structure ConvResult where
  slot : CamSlot
  tempExists : Bool
  mp4Exists : Bool
  sidecar : Option Sidecar
  deriving DecidableEq, Repr

/-- The frame-count validation threshold of src/api/conversion.py line 444,
int(total_frames * 0.95), with 0.95 read as the exact rational 19/20
(floor division; the double closest to 0.95 agrees on all inputs of
interest). -/
def validationThreshold (totalFrames : Nat) : Nat :=
  totalFrames * 19 / 20

/-- The mp4 output name for one camera of a batch,
f-string batch_id + _camera + cam_num + .mp4 (line 230). -/
def convMp4Name (batchId : String) (camNum : Nat) : String :=
  batchId ++ "_camera" ++ toString camNum ++ ".mp4"

/-- The encoder loop of _convert_single_camera
(src/api/conversion.py lines 322-489): for each candidate encoder, clear
any stale temp output, replay the BAG piping frames to the encoder, then
run the cancellation / read / non-empty / frame-count / rename checks. The
slot, the temp-file flag and the published-mp4 flag are threaded through;
throttled intermediate progress updates (lines 389-393) are not modelled. -/
def encoderLoop (mp4Name patientId : String) (prior : Option Sidecar)
    (totalFrames : Nat) (slot : CamSlot) (tempExists mp4Exists : Bool) :
    List (Encoder × EncoderAttempt) → ConvResult
  | [] =>
      -- All encoders failed (lines 486-489): cleanup temp, mark failed.
      { slot := { slot with
          status := SlotStatus.failed,
          errorMsg := some ("All encoders failed (h264_nvenc, libx264)") },
        tempExists := false, mp4Exists := mp4Exists, sidecar := prior }
  | (enc, a) :: rest =>
      -- Cancellation check at the top of the loop (lines 323-325):
      -- returns WITHOUT cleaning the temp file.
      if a.cancelledAtStart then
        { slot := { slot with status := SlotStatus.cancelled },
          tempExists := tempExists, mp4Exists := mp4Exists, sidecar := prior }
      else
        -- _cleanup_temp (line 327), record the encoder (line 329), replay
        -- the BAG piping frames to the subprocess; a.tempProduced is what
        -- the subprocess left at the temp path.
        let slot1 := { slot with encoder := some enc }
        if a.cancelledAfterPipe then
          -- Cancelled mid-pipe (lines 419-422): cleanup, then cancelled.
          { slot := { slot1 with status := SlotStatus.cancelled },
            tempExists := false, mp4Exists := mp4Exists, sidecar := prior }
        else if ¬ a.bagReadOk then
          -- BAG read error (lines 424-426): cleanup, try next encoder.
          encoderLoop mp4Name patientId prior totalFrames slot1 false mp4Exists rest
        else if ¬ (a.tempProduced ∧ a.tempNonEmpty) then
          -- Output missing or empty (lines 429-432): cleanup, next encoder.
          encoderLoop mp4Name patientId prior totalFrames slot1 false mp4Exists rest
        else if 0 < totalFrames ∧ a.mp4Frames < validationThreshold totalFrames then
          -- Frame-count validation failed (lines 444-450): cleanup, next.
          encoderLoop mp4Name patientId prior totalFrames slot1 false mp4Exists rest
        else if ¬ a.renameOk then
          -- Rename failed (lines 453-461): cleanup temp, mark failed.
          { slot := { slot1 with
              status := SlotStatus.failed, errorMsg := some ("rename failed") },
            tempExists := false, mp4Exists := mp4Exists, sidecar := prior }
        else
          -- Success (lines 452-484): temp renamed over any previous mp4,
          -- slot marked done, sidecar stamped with the cv2 frame count.
          { slot := { slot1 with
              status := SlotStatus.done, progress := 100,
              framesWritten := a.framesWritten, mp4File := some mp4Name },
            tempExists := false, mp4Exists := true,
            sidecar := some (update_metadata_sidecar prior mp4Name a.mp4Frames patientId) }

/-- Inputs of one run of _convert_single_camera: on-disk situation at
entry, the force flag of the job, the frame count of the counting pass,
the cancellation poll after counting, and the oracles for the two encoder
attempts. -/
structure ConvInput where
  bagExists : Bool
  mp4Exists : Bool
  force : Bool
  ffmpegAvailable : Bool
  priorSidecar : Option Sidecar
  batchId : String
  camNum : Nat
  totalFrames : Nat
  cancelledAfterCount : Bool
  attemptNvenc : EncoderAttempt
  attemptX264 : EncoderAttempt
  initTempExists : Bool
  deriving DecidableEq, Repr

/-- _convert_single_camera (src/api/conversion.py lines 220-489). The
sidecar read (lines 282-293) only feeds values back into
_update_metadata_sidecar through its setdefault fields, so both sidecar
updates are modelled with the default empty patient id, which yields the
same merged sidecar. -/
def convert_single_camera (inp : ConvInput) : ConvResult :=
  let mp4Name := convMp4Name inp.batchId inp.camNum
  let slot0 : CamSlot := {}
  -- Guard: BAG missing (lines 256-258). No temp cleanup on this path.
  if ¬ inp.bagExists then
    { slot := { slot0 with
        status := SlotStatus.failed, errorMsg := some ("BAG not found") },
      tempExists := inp.initTempExists, mp4Exists := inp.mp4Exists,
      sidecar := inp.priorSidecar }
  -- Guard: output already exists and force is off (lines 264-268):
  -- skip, and stamp the sidecar with mp4_frames = 0.
  else if inp.mp4Exists ∧ ¬ inp.force then
    { slot := { slot0 with
        status := SlotStatus.skipped, mp4File := some mp4Name, progress := 100 },
      tempExists := inp.initTempExists, mp4Exists := true,
      sidecar := some (update_metadata_sidecar inp.priorSidecar mp4Name 0 "") }
  -- Guard: FFmpeg unavailable (lines 270-273).
  else if ¬ inp.ffmpegAvailable then
    { slot := { slot0 with
        status := SlotStatus.failed, errorMsg := some ("FFmpeg not available") },
      tempExists := inp.initTempExists, mp4Exists := inp.mp4Exists,
      sidecar := inp.priorSidecar }
  else
    -- Counting pass (lines 297-301), then cancellation poll (lines 303-305).
    let slot1 := { slot0 with
      status := SlotStatus.converting, totalFrames := inp.totalFrames }
    if inp.cancelledAfterCount then
      { slot := { slot1 with status := SlotStatus.cancelled },
        tempExists := inp.initTempExists, mp4Exists := inp.mp4Exists,
        sidecar := inp.priorSidecar }
    else
      encoderLoop mp4Name "" inp.priorSidecar inp.totalFrames slot1
        inp.initTempExists inp.mp4Exists
        [(Encoder.h264Nvenc, inp.attemptNvenc), (Encoder.libx264, inp.attemptX264)]

/-- An encoder attempt that succeeds end to end but whose output keeps
only 9 of the 10 counted frames. -/
def nineOfTenAttempt : EncoderAttempt :=
  { cancelledAtStart := false, cancelledAfterPipe := false, bagReadOk := true,
    tempProduced := true, tempNonEmpty := true, framesWritten := 9,
    mp4Frames := 9, renameOk := true }

/-- A conversion run whose counting pass sees 10 frames and whose first
encoder produces a 9-frame output: 9 passes the int(10 * 0.95) = 9
validation threshold although 9 is below 95 percent of 10. -/
def nineOfTenInput : ConvInput :=
  { bagExists := true, mp4Exists := false, force := false,
    ffmpegAvailable := true, priorSidecar := none,
    batchId := "2026-01-01_00-00-00", camNum := 1, totalFrames := 10,
    cancelledAfterCount := false, attemptNvenc := nineOfTenAttempt,
    attemptX264 := nineOfTenAttempt, initTempExists := false }

/-- A conversion request with force off while the output already exists,
whose sidecar from an earlier conversion records 100 frames. -/
def skipWithPriorInput : ConvInput :=
  { bagExists := true, mp4Exists := true, force := false,
    ffmpegAvailable := true,
    priorSidecar := some { mp4File := none, mp4Frames := some 100, patientId := none },
    batchId := "batch-A", camNum := 1, totalFrames := 0,
    cancelledAfterCount := false, attemptNvenc := nineOfTenAttempt,
    attemptX264 := nineOfTenAttempt, initTempExists := false }

/-- A conversion run that fails immediately because the BAG is missing
(concrete instance for witnesses). -/
def missingBagInput : ConvInput :=
  { bagExists := false, mp4Exists := false, force := false,
    ffmpegAvailable := true, priorSidecar := none,
    batchId := "batch-A", camNum := 2, totalFrames := 0,
    cancelledAfterCount := false, attemptNvenc := nineOfTenAttempt,
    attemptX264 := nineOfTenAttempt, initTempExists := false }

-- =========================================================================
-- Definitions: recording orchestrator (src/api/main.py lines 282-491)
-- =========================================================================

/-- Recording session status strings of src/api/main.py
(idle, warming_up, recording, paused). -/
inductive RecStatus
  | idle
  | warmingUp
  | recording
  | paused
  deriving DecidableEq, Repr

/-- Python dict item assignment d[k] = v on an association list. -/
def setEntry {α : Type} : List (Nat × α) → Nat → α → List (Nat × α)
  | [], k, v => [(k, v)]
  | (k1, v1) :: rest, k, v =>
      if k1 = k then (k, v) :: rest else (k1, v1) :: setEntry rest k v

/-- The recording_state dict of src/api/main.py lines 131-146, restricted
to the fields the claims touch. The inter-camera offset and the
pipeline-restart timings (floats derived from monotonic clocks) are not
modelled. -/
structure RecordingState where
  status : RecStatus
  timestampStr : String
  writersBag : List (Nat × Bool)
  filenamesBag : List (Nat × Option String)
  cameraTypes : List (Nat × CameraType)
  fpsPerCam : List (Nat × Nat)
  recordingStartTimes : List (Nat × Option String)
  deriving DecidableEq, Repr

/-- Oracle for one camera during the two-phase synchronized arm: whether
it is streaming when prepare runs, whether prepare_recording resolves a
config, whether its barrier wait returns (versus BrokenBarrierError), and
whether commit_recording starts the pipeline. -/
structure CamArm where
  running : Bool
  prepareOk : Bool
  barrierOk : Bool
  commitOk : Bool
  cameraType : CameraType
  fps : Nat
  startIso : String
  deriving DecidableEq, Repr

/-- The BAG file name built in _prepare_camera_recording (line 307),
timestamp + _camera + (cam_id + 1) + .bag. -/
def bagName (timestampStr : String) (camId : Nat) : String :=
  timestampStr ++ "_camera" ++ toString (camId + 1) ++ ".bag"

/-- The dict stored into prepared_dict[cam_id] by
_prepare_camera_recording (src/api/main.py lines 282-326); none models
the offline-camera early return (lines 296-299). -/
structure PrepInfo where
  prepared : Bool
  bagFilename : String
  cameraType : CameraType
  actualFps : Nat
  deriving DecidableEq, Repr

/-- _prepare_camera_recording (src/api/main.py lines 282-326). -/
def prepare_camera_recording (camId : Nat) (timestampStr : String)
    (arm : CamArm) : Option PrepInfo :=
  if ¬ arm.running then none
  else
    some { prepared := arm.prepareOk,
           bagFilename := bagName timestampStr camId,
           cameraType := arm.cameraType, actualFps := arm.fps }

/-- The dict stored into result_dict[cam_id] by _commit_camera_recording
(src/api/main.py lines 329-380); none models the broken-barrier early
return (lines 353-356). Monotonic timing fields are not modelled. -/
structure CommitInfo where
  bagFilename : Option String
  bagSuccess : Bool
  cameraType : CameraType
  actualFps : Nat
  recordingStartIso : Option String
  deriving DecidableEq, Repr

/-- _commit_camera_recording for a camera whose prepare succeeded
(src/api/main.py lines 329-380): wait at the barrier, then call
commit_recording. Note that a commit failure still produces a result
dict, with bag_success false and null filename and start time. -/
def commit_camera_recording (info : PrepInfo) (arm : CamArm) :
    Option CommitInfo :=
  if ¬ arm.barrierOk then none
  else
    some { bagFilename := if arm.commitOk then some info.bagFilename else none,
           bagSuccess := arm.commitOk,
           cameraType := info.cameraType,
           actualFps := info.actualFps,
           recordingStartIso := if arm.commitOk then some arm.startIso else none }

/-- One camera through both phases: the cam_info entry it contributes to
_initialize_recording, none when it was dropped (offline, failed prepare,
or broken barrier; the prepared-none branch of _commit_camera_recording
never runs for a ready camera). -/
def armCommit (camId : Nat) (timestampStr : String) (arm : CamArm) :
    Option CommitInfo :=
  match prepare_camera_recording camId timestampStr arm with
  | none => none
  | some p => if p.prepared then commit_camera_recording p arm else none

/-- Membership of a camera in ready_cams (src/api/main.py lines 420-423):
it was streaming and its prepare resolved a config. -/
def camReady (arm : CamArm) : Bool :=
  arm.running && arm.prepareOk

/-- The per-camera dict insertions of src/api/main.py lines 463-467 for
one cam_info entry. -/
def applyCommit (st : RecordingState) (camId : Nat) :
    Option CommitInfo → RecordingState
  | none => st
  | some i =>
      { st with
        writersBag := setEntry st.writersBag camId i.bagSuccess,
        filenamesBag := setEntry st.filenamesBag camId i.bagFilename,
        cameraTypes := setEntry st.cameraTypes camId i.cameraType,
        fpsPerCam := setEntry st.fpsPerCam camId i.actualFps }

/-- The recording_start_times entry contributed by one cam_info entry
(dict comprehension at src/api/main.py lines 481-483). -/
def startTimesOf (cinfo : Option CommitInfo) (camId : Nat) :
    List (Nat × Option String) :=
  match cinfo with
  | some i => [(camId, i.recordingStartIso)]
  | none => []

/-- _initialize_recording (src/api/main.py lines 383-491): two-phase
synchronized arm for logical cameras 0 and 1. `cancelledMid` models a
concurrent stop having moved the session out of warming_up while the arm
was in flight (the state such a stop installs, and the stop_recording
calls issued to committed cameras, are outside this model: the function
then returns with the session fields untouched). -/
def initialize_recording (st : RecordingState) (arm0 arm1 : CamArm)
    (cancelledMid : Bool) : RecordingState :=
  -- Entry check (lines 398-402): warm-up already cancelled.
  if st.status ≠ RecStatus.warmingUp then st
  else
    -- Phase 1 (prepare) and phase 2 (commit) per camera; cam_info keeps
    -- the non-none results (lines 404-449).
    let c0 := armCommit 0 st.timestampStr arm0
    let c1 := armCommit 1 st.timestampStr arm1
    if ¬ (camReady arm0 ∨ camReady arm1) then
      -- No cameras ready for recording (lines 425-430): back to idle.
      if cancelledMid then st else { st with status := RecStatus.idle }
    else if cancelledMid then st
    else
      -- Populate session fields from cam_info and enter recording
      -- (lines 463-491).
      let st1 := applyCommit st 0 c0
      let st2 := applyCommit st1 1 c1
      { st2 with
        recordingStartTimes := startTimesOf c0 0 ++ startTimesOf c1 1,
        status := RecStatus.recording }

/-- A session in warm-up with empty per-camera dicts (the state the warm-up
timer callback sees after /recording/start). -/
def warmupState : RecordingState :=
  { status := RecStatus.warmingUp, timestampStr := "2026-01-01_00-00-00",
    writersBag := [], filenamesBag := [], cameraTypes := [], fpsPerCam := [],
    recordingStartTimes := [] }

/-- A camera that streams and prepares fine, reaches the barrier, but
whose commit_recording fails to start the pipeline. -/
def commitFailArm : CamArm :=
  { running := true, prepareOk := true, barrierOk := true, commitOk := false,
    cameraType := CameraType.realsense, fps := 60, startIso := "" }

/-- A camera that is offline when prepare runs. -/
def offlineArm : CamArm :=
  { running := false, prepareOk := false, barrierOk := false, commitOk := false,
    cameraType := CameraType.realsense, fps := 0, startIso := "" }

-- =========================================================================
-- Theorems: CameraSource / camera ids
-- =========================================================================

/-- Claim C2: a CameraSource that is already running returns success from
start immediately and without side effects: the state is unchanged and no
device open, configuration negotiation or capture-thread spawn happens. -/
theorem start_already_running_idempotent (env : CameraEnv) (deviceOk : Bool)
    (st : CameraState) (h : st.running = true) :
    CameraSource.start env deviceOk st = (true, st, []) := by
  simp [CameraSource.start, h]

theorem start_already_running_idempotent_witness :
    CameraSource.start envCam0Only true runningCam = (true, runningCam, []) :=
  start_already_running_idempotent envCam0Only true runningCam rfl

/-- Claim C6: calling start on a stopped live (realsense) camera whose id
is not in the detection cache returns false with no retry: no device open
or configuration attempt, no detection refresh, state unchanged (still
stopped). -/
theorem start_not_in_detection_cache_fails_fast (env : CameraEnv)
    (deviceOk : Bool) (st : CameraState)
    (hrun : st.running = false)
    (htype : st.cameraType = CameraType.realsense)
    (hdet : (env.detected.lookup st.cameraId).isNone) :
    CameraSource.start env deviceOk st = (false, st, []) := by
  unfold CameraSource.start
  cases hA : env.realsenseAvailable <;> simp [hrun, htype, hdet]

theorem start_not_in_detection_cache_fails_fast_witness :
    CameraSource.start envCam0Only true stoppedCam = (false, stoppedCam, []) :=
  start_not_in_detection_cache_fails_fast envCam0Only true stoppedCam
    rfl rfl (by decide)

/-- Claim C9: stop_recording on a source that is not recording returns
none and has no side effects: no pipeline stop or restart, capture thread
and all recording bookkeeping fields untouched. -/
theorem stop_recording_not_recording_noop (restartOk : Bool)
    (st : CameraState) (h : st.recording = false) :
    CameraSource.stop_recording restartOk st = (none, st, []) := by
  simp [CameraSource.stop_recording, h]

theorem stop_recording_not_recording_noop_witness :
    CameraSource.stop_recording true runningCam = (none, runningCam, []) :=
  stop_recording_not_recording_noop true runningCam rfl

/-- Claim C10: on logical ids 0 and 1, get_physical_camera_id is an
involution with values in 0 and 1; with the swap flag off it is the
identity, and with the swap flag on it exchanges 0 and 1. -/
theorem get_physical_camera_id_involution_on_01 (swapCameras : Bool)
    (logicalId : Int) (h : logicalId = 0 ∨ logicalId = 1) :
    get_physical_camera_id swapCameras
        (get_physical_camera_id swapCameras logicalId) = logicalId
    ∧ (get_physical_camera_id swapCameras logicalId = 0
       ∨ get_physical_camera_id swapCameras logicalId = 1)
    ∧ (swapCameras = false → get_physical_camera_id swapCameras logicalId = logicalId)
    ∧ (swapCameras = true →
        get_physical_camera_id true 0 = 1 ∧ get_physical_camera_id true 1 = 0) := by
  rcases h with h | h <;> cases swapCameras <;> simp [get_physical_camera_id, h]

theorem get_physical_camera_id_involution_on_01_witness :
    get_physical_camera_id true (get_physical_camera_id true 0) = 0
    ∧ (get_physical_camera_id true 0 = 0 ∨ get_physical_camera_id true 0 = 1)
    ∧ (true = false → get_physical_camera_id true 0 = 0)
    ∧ (true = true →
        get_physical_camera_id true 0 = 1 ∧ get_physical_camera_id true 1 = 0) :=
  get_physical_camera_id_involution_on_01 true 0 (Or.inl rfl)

-- =========================================================================
-- Theorems: conversion job table
-- =========================================================================

/-- Claim C8: cancel_conversion_job returns false exactly when no job with
the given id exists; when the job exists it returns true, sets the
cancelled flag, moves the status to cancelled only from pending or
converting (a finished job keeps its final status), and leaves every other
job untouched. -/
theorem cancel_conversion_job_spec (jobs : String → Option ConversionJob)
    (jobId : String) :
    ((cancel_conversion_job jobs jobId).1 = false ↔ jobs jobId = none)
    ∧ ∀ job, jobs jobId = some job →
        (cancel_conversion_job jobs jobId).1 = true
        ∧ (cancel_conversion_job jobs jobId).2 jobId
            = some { job with
                cancelled := true,
                status :=
                  if job.status = JobStatus.pending ∨ job.status = JobStatus.converting
                  then JobStatus.cancelled else job.status }
        ∧ ∀ k, k ≠ jobId → (cancel_conversion_job jobs jobId).2 k = jobs k := by
  cases h : jobs jobId with
  | none =>
      refine ⟨by simp [cancel_conversion_job, h], ?_⟩
      intro job hj
      exact absurd hj (by simp)
  | some job =>
      refine ⟨by simp [cancel_conversion_job, h], ?_⟩
      intro job2 hj
      rw [Option.some_inj] at hj
      subst hj
      refine ⟨by simp [cancel_conversion_job, h], ?_, ?_⟩
      · by_cases hc : job.status = JobStatus.pending ∨ job.status = JobStatus.converting <;>
          simp [cancel_conversion_job, h, hc]
      · intro k hk
        simp [cancel_conversion_job, h, hk]

theorem cancel_conversion_job_spec_witness :
    (cancel_conversion_job demoJobs jobOneId).1 = true
    ∧ (cancel_conversion_job demoJobs jobOneId).2 jobOneId
        = some { demoJob with
            cancelled := true,
            status :=
              if demoJob.status = JobStatus.pending ∨ demoJob.status = JobStatus.converting
              then JobStatus.cancelled else demoJob.status }
    ∧ (cancel_conversion_job demoJobs jobOneId).2 jobTwoId = demoJobs jobTwoId :=
  ⟨((cancel_conversion_job_spec demoJobs jobOneId).2 demoJob (by decide)).1,
   ((cancel_conversion_job_spec demoJobs jobOneId).2 demoJob (by decide)).2.1,
   ((cancel_conversion_job_spec demoJobs jobOneId).2 demoJob (by decide)).2.2
     jobTwoId (by decide)⟩

-- =========================================================================
-- Theorems: per-camera conversion
-- =========================================================================

/-- If the temp file is absent at entry of the encoder loop, it is absent
at every exit: every continue and failure path runs _cleanup_temp first,
and the success path renames the temp file away. -/
theorem encoderLoop_temp_clean (mp4Name patientId : String)
    (prior : Option Sidecar) (totalFrames : Nat) :
    ∀ (attempts : List (Encoder × EncoderAttempt)) (slot : CamSlot)
      (mp4Exists : Bool),
      (encoderLoop mp4Name patientId prior totalFrames slot false mp4Exists
        attempts).tempExists = false := by
  intro attempts
  induction attempts with
  | nil => intro slot mp4Exists; rfl
  | cons hd rest ih =>
      intro slot mp4Exists
      obtain ⟨enc, a⟩ := hd
      simp only [encoderLoop]
      repeat' split
      · rfl
      · rfl
      · exact ih _ _
      · exact ih _ _
      · exact ih _ _
      · rfl
      · rfl

/-- If no temp file exists when _convert_single_camera starts, none exists
when it returns, whatever the outcome. -/
theorem convert_temp_clean_of_init_clean (inp : ConvInput)
    (htemp : inp.initTempExists = false) :
    (convert_single_camera inp).tempExists = false := by
  simp only [convert_single_camera, htemp]
  repeat' split
  · rfl
  · rfl
  · rfl
  · rfl
  · exact encoderLoop_temp_clean _ _ _ _ _ _ _

/-- Claim C4: a conversion slot that ends failed or cancelled leaves no
temporary .mp4.converting file on disk (starting, as every fresh run does,
without one). -/
theorem convert_failed_or_cancelled_removes_temp (inp : ConvInput)
    (htemp : inp.initTempExists = false)
    (_hstatus : (convert_single_camera inp).slot.status = SlotStatus.failed
      ∨ (convert_single_camera inp).slot.status = SlotStatus.cancelled) :
    (convert_single_camera inp).tempExists = false :=
  convert_temp_clean_of_init_clean inp htemp

theorem convert_failed_or_cancelled_removes_temp_witness :
    (convert_single_camera missingBagInput).tempExists = false :=
  convert_failed_or_cancelled_removes_temp missingBagInput rfl
    (Or.inl (by decide))

/-- If the encoder loop ends with a done slot, the sidecar was stamped
with a validated frame count that reached the floored threshold
int(total_frames * 0.95). -/
theorem encoderLoop_done_validated (mp4Name patientId : String)
    (prior : Option Sidecar) (totalFrames : Nat) :
    ∀ (attempts : List (Encoder × EncoderAttempt)) (slot : CamSlot)
      (tempExists mp4Exists : Bool),
      (encoderLoop mp4Name patientId prior totalFrames slot tempExists
        mp4Exists attempts).slot.status = SlotStatus.done →
      ∃ v, (encoderLoop mp4Name patientId prior totalFrames slot tempExists
              mp4Exists attempts).sidecar
            = some (update_metadata_sidecar prior mp4Name v patientId)
        ∧ validationThreshold totalFrames ≤ v := by
  intro attempts
  induction attempts with
  | nil =>
      intro slot tempExists mp4Exists h
      exact absurd h (by simp [encoderLoop])
  | cons hd rest ih =>
      intro slot tempExists mp4Exists
      obtain ⟨enc, a⟩ := hd
      simp only [encoderLoop]
      split
      · intro h; exact absurd h (by simp)
      · split
        · intro h; exact absurd h (by simp)
        · split
          · exact fun h => ih _ _ _ h
          · split
            · exact fun h => ih _ _ _ h
            · split
              · exact fun h => ih _ _ _ h
              · split
                · intro h; exact absurd h (by simp)
                · intro _
                  refine ⟨a.mp4Frames, rfl, ?_⟩
                  rename_i hval hren hdone
                  rcases Nat.eq_zero_or_pos totalFrames with h0 | hpos
                  · simp [h0, validationThreshold]
                  · by_contra hlt
                    exact hval ⟨hpos, Nat.lt_of_not_le hlt⟩

/-- Claim C3 (amended): a slot that ends done holds a validated output
whose measured frame count reaches int(total_frames * 0.95), the floored
95 percent threshold (which can be strictly below 95 percent of the
counted frames). -/
theorem convert_done_meets_floor_threshold (inp : ConvInput)
    (h : (convert_single_camera inp).slot.status = SlotStatus.done) :
    ∃ v, (convert_single_camera inp).sidecar
          = some (update_metadata_sidecar inp.priorSidecar
              (convMp4Name inp.batchId inp.camNum) v "")
      ∧ validationThreshold inp.totalFrames ≤ v := by
  revert h
  simp only [convert_single_camera]
  split
  · intro h; exact absurd h (by simp)
  · split
    · intro h; exact absurd h (by simp)
    · split
      · intro h; exact absurd h (by simp)
      · split
        · intro h; exact absurd h (by simp)
        · exact fun h => encoderLoop_done_validated _ _ _ _ _ _ _ _ h

theorem convert_done_meets_floor_threshold_witness :
    ∃ v, (convert_single_camera nineOfTenInput).sidecar
          = some (update_metadata_sidecar nineOfTenInput.priorSidecar
              (convMp4Name nineOfTenInput.batchId nineOfTenInput.camNum) v "")
      ∧ validationThreshold nineOfTenInput.totalFrames ≤ v :=
  convert_done_meets_floor_threshold nineOfTenInput (by decide)

/-- Claim C3 (counterexample): a run counting 10 frames whose encoder
keeps 9 ends done — 9 passes the truncated threshold int(10 * 0.95) = 9 —
yet 9 is strictly below 95 percent of 10, refuting the claim as stated. -/
theorem convert_done_below_95_percent :
    (convert_single_camera nineOfTenInput).slot.status = SlotStatus.done
    ∧ (convert_single_camera nineOfTenInput).slot.totalFrames = 10
    ∧ Option.map Sidecar.mp4Frames (convert_single_camera nineOfTenInput).sidecar
        = some (some 9)
    ∧ 9 * 100 < 95 * 10 := by decide

/-- Claim C7 (amended): with force off and the output already present, the
slot ends skipped with no re-encode (no encoder invoked, no temp file
created) and the sidecar is stamped with the existing file name but with
mp4_frames = 0 — the frame count of the pre-existing file is not used. -/
theorem convert_skip_no_reencode_stamps_zero (inp : ConvInput)
    (hbag : inp.bagExists = true) (hmp4 : inp.mp4Exists = true)
    (hforce : inp.force = false) :
    (convert_single_camera inp).slot.status = SlotStatus.skipped
    ∧ (convert_single_camera inp).slot.progress = 100
    ∧ (convert_single_camera inp).slot.mp4File
        = some (convMp4Name inp.batchId inp.camNum)
    ∧ (convert_single_camera inp).slot.encoder = none
    ∧ (convert_single_camera inp).tempExists = inp.initTempExists
    ∧ (convert_single_camera inp).sidecar
        = some (update_metadata_sidecar inp.priorSidecar
            (convMp4Name inp.batchId inp.camNum) 0 "") := by
  simp [convert_single_camera, hbag, hmp4, hforce]

theorem convert_skip_no_reencode_stamps_zero_witness :
    (convert_single_camera skipWithPriorInput).slot.status = SlotStatus.skipped
    ∧ (convert_single_camera skipWithPriorInput).slot.progress = 100
    ∧ (convert_single_camera skipWithPriorInput).slot.mp4File
        = some (convMp4Name skipWithPriorInput.batchId skipWithPriorInput.camNum)
    ∧ (convert_single_camera skipWithPriorInput).slot.encoder = none
    ∧ (convert_single_camera skipWithPriorInput).tempExists
        = skipWithPriorInput.initTempExists
    ∧ (convert_single_camera skipWithPriorInput).sidecar
        = some (update_metadata_sidecar skipWithPriorInput.priorSidecar
            (convMp4Name skipWithPriorInput.batchId skipWithPriorInput.camNum) 0 "") :=
  convert_skip_no_reencode_stamps_zero skipWithPriorInput rfl rfl rfl

/-- Claim C7 (counterexample): a skip over an output whose sidecar records
100 frames rewrites the sidecar with mp4_frames = 0, so the frame count
of the pre-existing file is not used as-is. -/
theorem convert_skip_overwrites_prior_frame_count :
    skipWithPriorInput.mp4Exists = true
    ∧ skipWithPriorInput.force = false
    ∧ Option.map Sidecar.mp4Frames skipWithPriorInput.priorSidecar
        = some (some 100)
    ∧ (convert_single_camera skipWithPriorInput).slot.status = SlotStatus.skipped
    ∧ Option.map Sidecar.mp4Frames (convert_single_camera skipWithPriorInput).sidecar
        = some (some 0)
    ∧ (some 0 : Option Nat) ≠ some 100 := by decide

-- =========================================================================
-- Theorems: recording orchestrator
-- =========================================================================

/-- applyCommit never touches the session status. -/
theorem applyCommit_status (st : RecordingState) (camId : Nat)
    (cinfo : Option CommitInfo) :
    (applyCommit st camId cinfo).status = st.status := by
  cases cinfo <;> rfl

/-- Claim C1: a camera that streams, prepares and reaches the barrier but
whose commit_recording returns false is nonetheless present in the
session after the arm completes, with bag_success false and null filename
and start time — the filter at src/api/main.py line 449 only drops the
none entries of broken barriers, contradicting the comment above it and
the claimed invariant. -/
theorem commit_failure_leaves_placeholder_entries :
    (initialize_recording warmupState commitFailArm offlineArm false).status
        = RecStatus.recording
    ∧ (initialize_recording warmupState commitFailArm offlineArm false).writersBag.lookup 0
        = some false
    ∧ (initialize_recording warmupState commitFailArm offlineArm false).filenamesBag.lookup 0
        = some none
    ∧ (initialize_recording warmupState commitFailArm offlineArm false).recordingStartTimes.lookup 0
        = some none
    ∧ (initialize_recording warmupState commitFailArm offlineArm false).writersBag.lookup 1
        = none := by decide

/-- Claim C5 (counterexample): camera 0 prepares and reaches the barrier
but its commit fails, camera 1 is offline — every prepared camera failed
to commit, yet the session ends in recording, not idle. -/
theorem all_commits_failed_still_recording :
    camReady commitFailArm = true
    ∧ commitFailArm.commitOk = false
    ∧ camReady offlineArm = false
    ∧ warmupState.status = RecStatus.warmingUp
    ∧ (initialize_recording warmupState commitFailArm offlineArm false).status
        = RecStatus.recording
    ∧ RecStatus.recording ≠ RecStatus.idle := by decide

/-- Claim C5 (amended): an uncancelled arm aborts back to idle exactly
when no camera prepared successfully; as soon as at least one camera is
ready after the prepare phase, the session enters recording, regardless
of every commit failing or every barrier breaking. -/
theorem initialize_recording_final_status (st : RecordingState)
    (arm0 arm1 : CamArm) (hst : st.status = RecStatus.warmingUp) :
    (initialize_recording st arm0 arm1 false).status =
      (if camReady arm0 ∨ camReady arm1
       then RecStatus.recording else RecStatus.idle) := by
  by_cases hr : camReady arm0 ∨ camReady arm1 <;>
    simp [initialize_recording, hst, hr]

theorem initialize_recording_final_status_witness :
    (initialize_recording warmupState commitFailArm offlineArm false).status =
      (if camReady commitFailArm ∨ camReady offlineArm
       then RecStatus.recording else RecStatus.idle) :=
  initialize_recording_final_status warmupState commitFailArm offlineArm rfl

end ParkinsonAnalysis
